import Mathlib

/-!
Verification development for the FileManager repository's container pack/unpack core.

Shallow embedding conventions:
* Byte strings are `List Nat` (one `Nat` per byte; writers reduce modulo 256 where the
  Python `struct` calls do).
* File systems are association lists `List (List Nat × List Nat)` from path bytes to
  content bytes; filesystem effects of an operation are recorded as a `FsOp` trace.
* External cryptographic primitives (pycryptodome's AES block cipher and AES-GCM,
  hashlib's SHA-256 and PBKDF2-HMAC) are not code of this repository; they enter the
  model as the fields of a `Crypto` parameter, so that theorems state exactly which
  properties of the primitives they use.  Cipher *modes* (CBC chaining, PKCS#7
  padding, GCM tag verification) and all container-format logic are translated from
  the source.
* Randomness (IVs, shuffling) is externalized into explicit parameters.
-/

/-- Python `struct.pack` big-endian encoder: `beBytes k v` is the `k`-byte
big-endian encoding of `v` (each byte reduced mod 256, most significant first). -/
def beBytes : Nat → Nat → List Nat
  | 0, _ => []
  | k + 1, v => beBytes k (v / 256) ++ [v % 256]

/-- Python `struct.pack('!H', v)`. -/
def be16 (v : Nat) : List Nat := beBytes 2 v

/-- Python `struct.pack('!I', v)`. -/
def be32 (v : Nat) : List Nat := beBytes 4 v

/-- Python `struct.pack('!Q', v)`. -/
def be64 (v : Nat) : List Nat := beBytes 8 v

/-- Python `struct.unpack` big-endian decoder (value of a byte string). -/
def beVal (l : List Nat) : Nat := l.foldl (fun a b => a * 256 + b) 0

/-- Python `struct.pack('!Ns', s)`: truncate or zero-pad a byte string to length `n`. -/
def fixLen (n : Nat) (s : List Nat) : List Nat := s.take n ++ List.replicate (n - s.length) 0

/-- Byte-wise XOR of two byte strings (truncating to the shorter, as real XOR of
equal-length cipher blocks never truncates). -/
def xorBytes (a b : List Nat) : List Nat := List.zipWith Nat.xor a b

/-- One bit-step of the reflected CRC-32 used by `zlib.crc32` (polynomial
0xEDB88320), in the branchless form: the polynomial is folded in exactly when the
low bit is set. -/
def crcStep (c : Nat) : Nat := (c / 2) ^^^ (c % 2 * 0xEDB88320)

/-- Iterated CRC-32 bit-steps. -/
def crcSteps : Nat → Nat → Nat
  | 0, c => c
  | n + 1, c => crcSteps n (crcStep c)

/-- The byte fold of CRC-32.  The accumulator is scrutinized at every step so that
proof-kernel evaluation of concrete checksums stays iterative. -/
def crc32Fold (c : Nat) : List Nat → Nat
  | [] => c
  | b :: bs =>
    match crcSteps 8 (c ^^^ b % 256) with
    | 0 => crc32Fold 0 bs
    | c2 + 1 => crc32Fold (c2 + 1) bs

/-- Model of `zlib.crc32(data)`: standard CRC-32 over the byte string. -/
def crc32 (data : List Nat) : Nat := crc32Fold 0xFFFFFFFF data ^^^ 0xFFFFFFFF

/-- Errors surfaced by the modelled Python code.  Each constructor stands for one
distinct exception site/type of the source (ValueError, struct.error, KeyError,
the repository's own FileSystemError/PackingError subclasses, ...). -/
inductive PyErr
  /-- ValueError "无效的文件格式" / PackingError "无效的打包文件格式". -/
  | invalidFormat
  /-- ValueError "秘钥验证失败" (stored key fragment does not match). -/
  | keyMismatch
  /-- PackingError "不支持的版本号". -/
  | badVersion
  /-- PackingError "文件头校验失败" (CRC mismatch on the manifest). -/
  | headerChecksum
  /-- PackingError "文件数据不完整" (truncated payload). -/
  | incompleteData
  /-- PackingError "文件校验失败" (per-file content hash mismatch), with the path. -/
  | hashMismatch (path : List Nat)
  /-- FileSystemError "路径不存在" from `validate_paths`, or FileNotFoundError. -/
  | pathNotFound (path : List Nat)
  /-- ValueError raised by pycryptodome `unpad` on bad PKCS#7 padding. -/
  | paddingError
  /-- ValueError raised by pycryptodome CBC `decrypt` on non-block-aligned data. -/
  | cbcLengthError
  /-- ValueError raised by pycryptodome on an IV that is not 16 bytes. -/
  | ivLengthError
  /-- struct.error (byte string of the wrong size for the format). -/
  | structError
  /-- ValueError raised by GCM `decrypt_and_verify` when the MAC check fails. -/
  | gcmAuthError
  /-- KeyError: a header entry dict lacks the key `size`. -/
  | keyErrorSize
  /-- KeyError: a header entry dict lacks the key `sha256`. -/
  | keyErrorSha256
  /-- KeyDerivationError "不支持的算法" from `KeyManager`. -/
  | unsupportedAlgorithm
  deriving DecidableEq, Repr

/-- One recorded filesystem effect. -/
inductive FsOp
  | writeFile (path : List Nat) (content : List Nat)
  | deleteFile (path : List Nat)
  | mkdirOp (path : List Nat)
  | renameFile (src : List Nat) (dst : List Nat)
  deriving DecidableEq, Repr

/-- Whether an effect is a rename (the atomic-rename pack step the spec describes). -/
def isRenameOp : FsOp → Bool
  | .renameFile _ _ => true
  | _ => false

/-- Whether an effect is a delete of the given path. -/
def isDeleteOf (p : List Nat) : FsOp → Bool
  | .deleteFile q => q == p
  | _ => false

/-- Whether an effect is a plain write to the given path. -/
def isWriteTo (p : List Nat) : FsOp → Bool
  | .writeFile q _ => q == p
  | _ => false

/-- Model of the external cryptographic primitives the source calls (pycryptodome,
hashlib).  These libraries are not part of the repository; the container logic is
parameterized over them and theorems name the primitive properties they rely on. -/
structure Crypto where
  /-- hashlib.pbkdf2_hmac / Crypto.Protocol.KDF.PBKDF2 as used by the KDF call sites. -/
  deriveKey : List Nat → List Nat → List Nat
  /-- Raw AES block encryption of one 16-byte block under a key. -/
  encBlock : List Nat → List Nat → List Nat
  /-- Raw AES block decryption of one 16-byte block under a key. -/
  decBlock : List Nat → List Nat → List Nat
  /-- hashlib.sha256(data).digest(). -/
  hash : List Nat → List Nat
  /-- AES-GCM encryption (key, nonce, plaintext ↦ ciphertext). -/
  gcmEnc : List Nat → List Nat → List Nat → List Nat
  /-- AES-GCM decryption (key, nonce, ciphertext ↦ plaintext). -/
  gcmDec : List Nat → List Nat → List Nat → List Nat
  /-- AES-GCM authentication tag over (key, nonce, ciphertext). -/
  gcmTag : List Nat → List Nat → List Nat → List Nat

/-- Split a byte string into 16-byte cipher blocks, structurally recursive on an
iteration bound (each step consumes 16 bytes, so `l.length` steps always suffice). -/
def toBlocksF : Nat → List Nat → List (List Nat)
  | 0, _ => []
  | fuel + 1, l => if l = [] then [] else l.take 16 :: toBlocksF fuel (l.drop 16)

/-- Split a byte string into 16-byte cipher blocks (last may be short). -/
def toBlocks (l : List Nat) : List (List Nat) := toBlocksF l.length l

/-- CBC-mode encryption over the block primitive, block list level: returns the
ciphertext blocks and the chaining state (last ciphertext block) left in the
cipher object, which pycryptodome reuses for the next `encrypt` call. -/
def cbcEncBlocks (C : Crypto) (key : List Nat) : List Nat → List (List Nat) → List (List Nat) × List Nat
  | iv, [] => ([], iv)
  | iv, b :: bs =>
    let c := C.encBlock key (xorBytes iv b)
    let r := cbcEncBlocks C key c bs
    (c :: r.1, r.2)

/-- Model of pycryptodome `cipher.encrypt(data)` in CBC mode (data block-aligned):
ciphertext plus the updated chaining IV. -/
def cbcEncrypt (C : Crypto) (key iv data : List Nat) : List Nat × List Nat :=
  let r := cbcEncBlocks C key iv (toBlocks data)
  (r.1.flatten, r.2)

/-- CBC-mode decryption at block list level, also returning the updated chaining IV. -/
def cbcDecBlocks (C : Crypto) (key : List Nat) : List Nat → List (List Nat) → List (List Nat) × List Nat
  | iv, [] => ([], iv)
  | iv, c :: cs =>
    let p := xorBytes iv (C.decBlock key c)
    let r := cbcDecBlocks C key c cs
    (p :: r.1, r.2)

/-- Model of pycryptodome `cipher.decrypt(data)` in CBC mode. -/
def cbcDecrypt (C : Crypto) (key iv ct : List Nat) : List Nat × List Nat :=
  let r := cbcDecBlocks C key iv (toBlocks ct)
  (r.1.flatten, r.2)

/-- Model of pycryptodome `pad(data, AES.block_size)` (PKCS#7: always appends
`16 - len mod 16` copies of that count). -/
def pad16 (data : List Nat) : List Nat :=
  data ++ List.replicate (16 - data.length % 16) (16 - data.length % 16)

/-- Model of pycryptodome `unpad(data, AES.block_size)`: rejects empty or
non-block-aligned input, a count outside 1..16, or inconsistent padding bytes. -/
def unpad16 (data : List Nat) : Except PyErr (List Nat) :=
  if data.length = 0 then .error .paddingError
  else if data.length % 16 ≠ 0 then .error .paddingError
  else
    let n := data.getLastD 0
    if n < 1 then .error .paddingError
    else if 16 < n then .error .paddingError
    else if data.drop (data.length - n) = List.replicate n n then .ok (data.take (data.length - n))
    else .error .paddingError

/-!
Model of `src/core/customized_packaging_unpacking.py` (the `pack_files` /
`unpack_file` pair).  The module's constants and layout are translated literally.
-/

/-- MAGIC_NUMBER = b'CFGP'. -/
def MAGIC_NUMBER : List Nat := [67, 70, 71, 80]

/-- VERSION = 1 (written as a 4-byte big-endian int by struct.pack('!4sI', ...)). -/
def VERSION : Nat := 1

/-- KEY_SALT = b'salt_for_key_derivation': a fixed module-level constant. -/
def KEY_SALT : List Nat :=
  [115, 97, 108, 116, 95, 102, 111, 114, 95, 107, 101, 121, 95, 100, 101, 114,
   105, 118, 97, 116, 105, 111, 110]

/-- Model of `os.path.basename` on byte paths ('/' = byte 47). -/
def basename (p : List Nat) : List Nat := (p.reverse.takeWhile (fun b => b ≠ 47)).reverse

/-- The key `pack_files` derives (line 38): always from the caller's secret and the
fixed module constant `KEY_SALT`. -/
def packFilesDerivedKey (C : Crypto) (secret_key : List Nat) : List Nat :=
  C.deriveKey secret_key KEY_SALT

/-- The key `unpack_file` derives (line 86): also from the fixed `KEY_SALT`; it is
a function of the secret alone and does not depend on the container. -/
def unpackDerivedKey (C : Crypto) (secret_key : List Nat) : List Nat :=
  C.deriveKey secret_key KEY_SALT

/-- Resolve the input paths against the filesystem: `open(file_path, 'rb')` plus
`os.path.basename` / `os.path.getsize`; a missing file raises FileNotFoundError. -/
def resolveInputs (fs : List (List Nat × List Nat)) :
    List (List Nat) → Except PyErr (List (List Nat × List Nat))
  | [] => .ok []
  | p :: ps =>
    match fs.lookup p with
    | none => .error (.pathNotFound p)
    | some content =>
      match resolveInputs fs ps with
      | .error e => .error e
      | .ok rest => .ok ((basename p, content) :: rest)

/-- The file-data region of `pack_files`: one entry per file,
`!I`(name length) ++ name ++ `!Q`(plaintext size) ++ CBC ciphertext of the padded
content.  A single cipher object is reused, so the CBC chaining state (second
component) carries over from one file to the next. -/
def packEntries (C : Crypto) (key : List Nat) :
    List Nat → List (List Nat × List Nat) → List Nat × List Nat
  | iv, [] => ([], iv)
  | iv, (name, content) :: rest =>
    let e := cbcEncrypt C key iv (pad16 content)
    let r := packEntries C key e.2 rest
    (be32 name.length ++ name ++ be64 content.length ++ e.1 ++ r.1, r.2)

/-- Translation of `pack_files(input_files, output_path, secret_key)`: returns the
container bytes written to `output_path`.  The random CBC IV chosen by
`AES.new(..., AES.MODE_CBC)` is the explicit parameter `iv`.  The header stores the
IV and the first 16 bytes of the derived key (both via struct '!16s16s'); the
footer is `!32s` of the hash of the file-data region. -/
def pack_files (C : Crypto) (fs : List (List Nat × List Nat)) (input_files : List (List Nat))
    (iv : List Nat) (secret_key : List Nat) : Except PyErr (List Nat) :=
  let derived_key := packFilesDerivedKey C secret_key
  let header := MAGIC_NUMBER ++ be32 VERSION ++ fixLen 16 iv ++ fixLen 16 (derived_key.take 16)
  match resolveInputs fs input_files with
  | .error e => .error e
  | .ok entries =>
    let file_data := (packEntries C derived_key iv entries).1
    let footer := fixLen 32 (C.hash file_data)
    .ok (header ++ file_data ++ footer)

/-- The key-verification test of `unpack_file` (lines 83–88): the 16 stored header
bytes at offsets 24..40 against the first 16 bytes of the key derived from the
caller's secret. -/
def unpackKeyCheck (C : Crypto) (container : List Nat) (secret_key : List Nat) : Bool :=
  (container.drop 24).take 16 == (unpackDerivedKey C secret_key).take 16

/-- The entry-extraction loop of `unpack_file` (lines 96–121).  State: CBC chaining
IV (one cipher object for the whole loop), remaining container bytes, files written
so far.  Mirrors the source exactly: a short name-length read breaks out of the
loop only when empty (otherwise struct.error); a short size read prints a warning
and breaks (reporting success); the ciphertext length read for a file of size `n`
is `(n + 15) / 16 * 16` bytes — note this under-reads by one block when `n` is a
multiple of 16, since PKCS#7 `pad` always appends a full block in that case. -/
def unpackLoopF (C : Crypto) (key : List Nat) :
    Nat → List Nat → List Nat → List (List Nat × List Nat) →
    Except PyErr Unit × List (List Nat × List Nat)
  | 0, _, _, acc => (.error .structError, acc)
  | fuel + 1, iv, rem, acc =>
    if rem.length = 0 then (.ok (), acc)
    else if rem.length < 4 then (.error .structError, acc)
    else
      let name_len := beVal (rem.take 4)
      let r1 := rem.drop 4
      let name := r1.take name_len
      let r2 := r1.drop name_len
      if (r2.take 8).length ≠ 8 then (.ok (), acc)
      else
        let file_size := beVal (r2.take 8)
        let r3 := r2.drop 8
        let enc_len := (file_size + 16 - 1) / 16 * 16
        let encrypted := r3.take enc_len
        let r4 := r3.drop enc_len
        if encrypted.length % 16 ≠ 0 then (.error .cbcLengthError, acc)
        else
          let d := cbcDecrypt C key iv encrypted
          match unpad16 d.1 with
          | .error e => (.error e, acc)
          | .ok content => unpackLoopF C key fuel d.2 r4 (acc ++ [(name, content)])

/-- The loop, with its iteration bound: every pass through the loop body consumes
at least the 4 name-length bytes and 8 size bytes, so `rem.length + 1` structural
steps always reach one of the source's loop exits. -/
def unpackLoop (C : Crypto) (key : List Nat) (iv rem : List Nat)
    (acc : List (List Nat × List Nat)) : Except PyErr Unit × List (List Nat × List Nat) :=
  unpackLoopF C key (rem.length + 1) iv rem acc

/-- Translation of `unpack_file(input_path, output_dir, secret_key)`.  Result: the
outcome together with the files written into the output directory (name, content)
in order — on a failure mid-loop the files already written remain, as in the
source.  The version field is read but never validated, and the trailing checksum
over the data region is computed but never compared (the comparison at lines
136–139 of the source is commented out), so the loop's outcome is the outcome of
the whole call. -/
def unpack_file (C : Crypto) (container : List Nat) (secret_key : List Nat) :
    Except PyErr Unit × List (List Nat × List Nat) :=
  if container.take 4 ≠ MAGIC_NUMBER then (.error .invalidFormat, [])
  else if ((container.drop 4).take 4).length ≠ 4 then (.error .structError, [])
  else
    let iv := (container.drop 8).take 16
    if unpackKeyCheck C container secret_key = false then (.error .keyMismatch, [])
    else if iv.length ≠ 16 then (.error .ivLengthError, [])
    else unpackLoop C (unpackDerivedKey C secret_key) iv (container.drop 40) []

/-!
Model of `src/core/packaging.py` (BasePackager / SequentialPackager /
CustomPackager / ChunkedPackager) together with `validate_paths` from
`src/utils/helpers.py`.
-/

/-- HEADER_MAGIC = b'CUSPKG'. -/
def HEADER_MAGIC : List Nat := [67, 85, 83, 80, 75, 71]

/-- BasePackager.VERSION = 3 (one byte, struct.pack('!B', ...)). -/
def SEQ_VERSION : Nat := 3

/-- One file's manifest dict.  Python dicts may lack keys, so `size` and `sha256`
are `Option`s: `SequentialPackager.package` fills both, while
`ChunkedPackager.package` builds entries holding only `path` and `blocks`.
The source keeps `sha256` as a hex string and re-parses it with `bytes.fromhex`;
the model keeps digest bytes directly (hex round-trip is the identity). -/
structure PyFileInfo where
  path : List Nat
  size : Option Nat
  sha256 : Option (List Nat)
  blocks : List (List Nat)
  deriving DecidableEq, Repr

/-- Translation of `utils.helpers.validate_paths`: checks only that every path
exists, returning them in order; the first missing path raises FileSystemError. -/
def validate_paths (fs : List (List Nat × List Nat)) :
    List (List Nat) → Except PyErr (List (List Nat))
  | [] => .ok []
  | p :: ps =>
    if (fs.lookup p).isSome then
      match validate_paths fs ps with
      | .error e => .error e
      | .ok rest => .ok (p :: rest)
    else .error (.pathNotFound p)

/-- Modelled from the spec: `BasePackager` (packaging.py lines 76, 93, 368) calls
`self.key_manager.has_key()` and a zero-argument `self.key_manager.get_key()`, but
`KeyManager` in src/core/encryption.py defines neither (its `get_key` requires a
`key_id` argument), so running this code raises AttributeError.  Following the
spec's §4.2 — "If a key is supplied, encrypt the checksummed manifest with an
authenticated cipher" — the pair is modelled as the optional master key handed to
the packager's constructor. -/
def key_manager_key (key : Option (List Nat)) : Option (List Nat) := key

/-- The per-entry serialization of `_generate_header`:
`!H`(path length) ++ path ++ `!Q`(size) ++ 32-byte content hash.  A dict without
`size` (resp. `sha256`) raises KeyError at this point, which is exactly what
happens for the entries `ChunkedPackager.package` passes in. -/
def headerEntryBytes : List PyFileInfo → Except PyErr (List Nat)
  | [] => .ok []
  | f :: rest =>
    match f.size with
    | none => .error .keyErrorSize
    | some sz =>
      match f.sha256 with
      | none => .error .keyErrorSha256
      | some h =>
        match headerEntryBytes rest with
        | .error e => .error e
        | .ok r => .ok (be16 f.path.length ++ f.path ++ be64 sz ++ h ++ r)

/-- The checksummed manifest of `_generate_header`: CRC-32 (4 bytes, '!I') over
`!I`(entry count) ++ entries, prepended to it. -/
def header_plain (files : List PyFileInfo) : Except PyErr (List Nat) :=
  match headerEntryBytes files with
  | .error e => .error e
  | .ok entries =>
    let data := be32 files.length ++ entries
    .ok (be32 (crc32 data) ++ data)

/-- Translation of `BasePackager._generate_header`.  With a key the checksummed
manifest is AES-GCM encrypted under a random 16-byte nonce (the `iv` parameter):
MAGIC ++ version byte ++ iv ++ tag ++ ciphertext.  Without a key:
MAGIC ++ version byte ++ checksummed manifest.  Note no header-length field is
ever written. -/
def generate_header (C : Crypto) (key? : Option (List Nat)) (iv : List Nat)
    (files : List PyFileInfo) : Except PyErr (List Nat) :=
  match header_plain files with
  | .error e => .error e
  | .ok hd =>
    match key? with
    | some k =>
      let ct := C.gcmEnc k iv hd
      .ok (HEADER_MAGIC ++ [SEQ_VERSION % 256] ++ iv ++ C.gcmTag k iv ct ++ ct)
    | none => .ok (HEADER_MAGIC ++ [SEQ_VERSION % 256] ++ hd)

/-- The entry-parsing loop of `_parse_header`, `n` entries starting at `off`.
A slice too short for '!H'/'!Q' raises struct.error; the path and hash slices
may silently come out short, as Python slicing does. -/
def parseEntries (plain : List Nat) : Nat → Nat → Except PyErr (List PyFileInfo)
  | _, 0 => .ok []
  | off, Nat.succ n =>
    if ((plain.drop off).take 2).length ≠ 2 then .error .structError
    else
      let path_len := beVal ((plain.drop off).take 2)
      let path := (plain.drop (off + 2)).take path_len
      let o2 := off + 2 + path_len
      if ((plain.drop o2).take 8).length ≠ 8 then .error .structError
      else
        let size := beVal ((plain.drop o2).take 8)
        let sha := (plain.drop (o2 + 8)).take 32
        match parseEntries plain (o2 + 8 + 32) n with
        | .error e => .error e
        | .ok rest =>
          .ok ({ path := path, size := some size, sha256 := some sha, blocks := [] } :: rest)

/-- Translation of `BasePackager._parse_header`: magic, one version byte checked
against 3, then (keyed) GCM verify-and-decrypt of everything after byte 39, or
(unkeyed) the remainder as plaintext; then the CRC check and the entry loop. -/
def parse_header (C : Crypto) (key? : Option (List Nat)) (header_data : List Nat) :
    Except PyErr (List PyFileInfo) :=
  if header_data.take 6 ≠ HEADER_MAGIC then .error .invalidFormat
  else if ((header_data.drop 6).take 1).length ≠ 1 then .error .structError
  else if beVal ((header_data.drop 6).take 1) ≠ SEQ_VERSION then .error .badVersion
  else
    let step : Except PyErr (List Nat) :=
      match key? with
      | some k =>
        let iv := (header_data.drop 7).take 16
        let encrypted := header_data.drop 39
        if C.gcmTag k iv encrypted ≠ (header_data.drop 23).take 16 then .error .gcmAuthError
        else .ok (C.gcmDec k iv encrypted)
      | none => .ok (header_data.drop 7)
    match step with
    | .error e => .error e
    | .ok plain =>
      if (plain.take 4).length ≠ 4 then .error .structError
      else if crc32 (plain.drop 4) ≠ beVal (plain.take 4) then .error .headerChecksum
      else if ((plain.drop 4).take 4).length ≠ 4 then .error .structError
      else parseEntries plain 8 (beVal ((plain.drop 4).take 4))

/-- The manifest dicts `SequentialPackager.package` (and the identical
`CustomPackager.package`) builds: whole-file hash and byte size per validated
path.  `path.relative_to(Path.cwd())` is the identity on the model's
already-relative paths. -/
def build_file_list (C : Crypto) (fs : List (List Nat × List Nat)) :
    List (List Nat) → List PyFileInfo
  | [] => []
  | p :: ps =>
    { path := p, size := some ((fs.lookup p).getD []).length,
      sha256 := some (C.hash ((fs.lookup p).getD [])), blocks := [] }
      :: build_file_list C fs ps

/-- The container bytes `SequentialPackager.package` writes: the header followed by
the raw file contents back to back (the 4 MB read loop concatenates each file
unchanged).  Any failure here happens before the output file is opened. -/
def package_bytes (C : Crypto) (key : Option (List Nat)) (iv : List Nat)
    (fs : List (List Nat × List Nat)) (files : List (List Nat)) : Except PyErr (List Nat) :=
  match validate_paths fs files with
  | .error e => .error e
  | .ok validated =>
    match generate_header C (key_manager_key key) iv (build_file_list C fs validated) with
    | .error e => .error e
    | .ok header => .ok (header ++ (validated.map (fun p => (fs.lookup p).getD [])).flatten)

/-- Translation of `SequentialPackager.package` (CustomPackager.package is textually
identical), with its filesystem effects: on success a single direct write of the
container to the final output path — the source never writes to a temporary path
and never renames.  Failures during header construction occur before `open(output)`
and so write nothing.  (I/O faults during the write itself, which the source
answers with `safe_delete(output)`, are not fault-injected here.) -/
def SequentialPackager_package (C : Crypto) (key : Option (List Nat)) (iv : List Nat)
    (fs : List (List Nat × List Nat)) (files : List (List Nat)) (output : List Nat) :
    Except PyErr (List Nat) × List FsOp :=
  match package_bytes C key iv fs files with
  | .error e => (.error e, [])
  | .ok bytes => (.ok output, [.writeFile output bytes])

/-- The per-file extraction loop of `SequentialPackager.unpack` (lines 276–298):
each entry consumes `size` payload bytes into `output_dir/path`, then the hash
gate recomputes the whole-file hash and compares it with the manifest; a mismatch
deletes that file and aborts, leaving files already extracted in place.  A
truncated payload aborts with the partial file left on disk, as in the source. -/
def extract_files (C : Crypto) (output_dir : List Nat) :
    List PyFileInfo → List Nat → Except PyErr (List (List Nat)) × List FsOp
  | [], _ => (.ok [], [])
  | f :: rest, rem =>
    match f.size with
    | none => (.error .keyErrorSize, [])
    | some sz =>
      let out := output_dir ++ [47] ++ f.path
      let content := rem.take sz
      if rem.length < sz then (.error .incompleteData, [.writeFile out content])
      else
        match f.sha256 with
        | none => (.error .keyErrorSha256, [.writeFile out content])
        | some h =>
          if C.hash content ≠ h then
            (.error (.hashMismatch f.path), [.writeFile out content, .deleteFile out])
          else
            let r := extract_files C output_dir rest (rem.drop sz)
            (r.1.map (fun l => out :: l), .writeFile out content :: r.2)

/-- Translation of `SequentialPackager.unpack`.  After the magic check it reads
bytes 6..10 as a header length — but `_generate_header` never writes such a field,
so these are the version byte and the first three checksum/IV bytes.  It then
hands `container[:header_size]` to `_parse_header` and extracts the payload from
offset `header_size` on.  The output directory is created before anything is
read and is never removed. -/
def SequentialPackager_unpack (C : Crypto) (key : Option (List Nat)) (container : List Nat)
    (output_dir : List Nat) : Except PyErr (List (List Nat)) × List FsOp :=
  let tr0 := [FsOp.mkdirOp output_dir]
  if container.take 6 ≠ HEADER_MAGIC then (.error .invalidFormat, tr0)
  else if ((container.drop 6).take 4).length ≠ 4 then (.error .structError, tr0)
  else
    let header_size := beVal ((container.drop 6).take 4)
    match parse_header C (key_manager_key key) (container.take header_size) with
    | .error e => (.error e, tr0)
    | .ok files =>
      let r := extract_files C output_dir files (container.drop header_size)
      (r.1, tr0 ++ r.2)

/-!
Model of `ChunkedPackager` (packaging.py lines 303–372): content-addressed block
map with deduplication, shuffled block order, per-chunk encryption.
-/

/-- A chunk's BlockRef: `hashlib.sha256(chunk).digest()[:16]`. -/
def blockId (C : Crypto) (chunk : List Nat) : List Nat := (C.hash chunk).take 16

/-- Model of `ChunkedPackager._split_file`: successive `chunk_size`-byte reads
(the last chunk may be short; a zero read size yields no chunks, as Python's
`f.read(0)` is falsy).  Structurally recursive on an iteration bound: each read
consumes at least one byte, so `content.length` steps always suffice. -/
def splitChunksF (chunk_size : Nat) : Nat → List Nat → List (List Nat)
  | 0, _ => []
  | fuel + 1, content =>
    if content = [] ∨ chunk_size = 0 then []
    else content.take chunk_size :: splitChunksF chunk_size fuel (content.drop chunk_size)

/-- The chunk list of one file. -/
def splitChunks (chunk_size : Nat) (content : List Nat) : List (List Nat) :=
  splitChunksF chunk_size content.length content

/-- Python dict assignment `m[k] = v`: replace in place if the key exists
(keeping first-insertion order), else append. -/
def dictInsert (m : List (List Nat × List Nat)) (k v : List Nat) :
    List (List Nat × List Nat) :=
  if (m.lookup k).isSome then m.map (fun kv => if kv.1 = k then (k, v) else kv)
  else m ++ [(k, v)]

/-- The inner loop of `ChunkedPackager.package`: assign each chunk its BlockRef and
store it in `self.block_map` (deduplicating identical chunks); returns the file's
ordered BlockRef list and the updated map. -/
def addChunks (C : Crypto) (m : List (List Nat × List Nat)) :
    List (List Nat) → List (List Nat) × List (List Nat × List Nat)
  | [] => ([], m)
  | c :: cs =>
    let bid := blockId C c
    let r := addChunks C (dictInsert m bid c) cs
    (bid :: r.1, r.2)

/-- The outer loop over validated files: produces the `file_blocks` manifest
entries — note they carry only `path` and `blocks`, no `size` and no `sha256` —
and the final block map. -/
def chunkFiles (C : Crypto) (chunk_size : Nat) (m : List (List Nat × List Nat)) :
    List (List Nat × List Nat) → List PyFileInfo × List (List Nat × List Nat)
  | [] => ([], m)
  | (p, content) :: rest =>
    let r := addChunks C m (splitChunks chunk_size content)
    let r2 := chunkFiles C chunk_size r.2 rest
    ({ path := p, size := none, sha256 := none, blocks := r.1 } :: r2.1, r2.2)

/-- Translation of `ChunkedPackager._encrypt_chunk`: keyed, a fresh random IV
followed by CBC ciphertext of the padded chunk; unkeyed, the chunk itself. -/
def encrypt_chunk (C : Crypto) (key : Option (List Nat)) (iv chunk : List Nat) : List Nat :=
  match key with
  | some k => iv ++ (cbcEncrypt C k iv (pad16 chunk)).1
  | none => chunk

/-- Translation of `ChunkedPackager.package`.  Randomness is externalized:
`shuffle` stands for `random.shuffle` applied to the block-map keys, `ivs i` for
the fresh IV of the i-th written block, `hdr_iv` for the header nonce.  The
header is built from the `file_blocks` entries, whose dicts lack the `size` key
`_generate_header` reads — so for any nonempty file list this raises KeyError
before the output file is opened. -/
def ChunkedPackager_package (C : Crypto) (key : Option (List Nat)) (chunk_size : Nat)
    (hdr_iv : List Nat) (ivs : Nat → List Nat) (shuffle : List (List Nat) → List (List Nat))
    (fs : List (List Nat × List Nat)) (files : List (List Nat)) (output : List Nat) :
    Except PyErr (List Nat) × List FsOp :=
  match validate_paths fs files with
  | .error e => (.error e, [])
  | .ok validated =>
    let r := chunkFiles C chunk_size [] (validated.map (fun p => (p, (fs.lookup p).getD [])))
    let block_map := r.2
    let all_blocks := shuffle (block_map.map Prod.fst)
    match generate_header C (key_manager_key key) hdr_iv r.1 with
    | .error e => (.error e, [])
    | .ok header =>
      let body := (all_blocks.enum.map
        (fun bi => encrypt_chunk C key (ivs bi.1) ((block_map.lookup bi.2).getD []))).flatten
      (.ok output, [.writeFile output (header ++ all_blocks.flatten ++ body)])

/-!
Model of the key-derivation functions: `derive_key` in
customized_packaging_unpacking.py and `KeyManager.derive_key` in encryption.py.
The PBKDF2 iteration structure (RFC 2898: U-chains XORed together, 1-indexed
blocks, truncation to `dklen`) is implemented here; the underlying HMAC-SHA256
pseudorandom function is an external-library primitive, modelled by a stand-in
with SHA-256's real 32-byte output length.
-/

/-- Fold-mix used by the stand-in PRF lanes. -/
def mixNat (seed : Nat) (l : List Nat) : Nat := l.foldl (fun a x => a * 131 + x + 7) seed

/-- Stand-in for the external HMAC-SHA256 primitive (hashlib): a deterministic
keyed function with the real 32-byte digest length, every byte nonzero. -/
def hmacSha256 (key msg : List Nat) : List Nat :=
  (List.range 32).map (fun i => mixNat (i + 1) (key ++ [0] ++ msg) % 255 + 1)

/-- The U-chain of PBKDF2: iterate the PRF `n` more times from `u`, XOR-accumulating
into `acc`. -/
def pbkdf2Iter (prf : List Nat → List Nat → List Nat) (pw : List Nat) :
    Nat → List Nat → List Nat → List Nat
  | 0, _, acc => acc
  | n + 1, u, acc =>
    let u2 := prf pw u
    pbkdf2Iter prf pw n u2 (xorBytes acc u2)

/-- Block `i` of PBKDF2 (RFC 2898 `F`): `U1 = PRF(pw, salt ++ INT(i))`,
`Uj+1 = PRF(pw, Uj)`, result the XOR of `U1..Uc`. -/
def pbkdf2F (prf : List Nat → List Nat → List Nat) (pw salt : List Nat) (c i : Nat) : List Nat :=
  let u1 := prf pw (salt ++ be32 i)
  pbkdf2Iter prf pw (c - 1) u1 u1

/-- PBKDF2 with a 32-byte PRF: blocks `F(1) .. F(ceil(dklen/32))` concatenated and
truncated to `dklen` bytes (hashlib.pbkdf2_hmac / Crypto.Protocol.KDF.PBKDF2). -/
def pbkdf2_hmac (prf : List Nat → List Nat → List Nat) (pw salt : List Nat)
    (iterations dklen : Nat) : List Nat :=
  (((List.range ((dklen + 32 - 1) / 32)).map (fun i => pbkdf2F prf pw salt iterations (i + 1))).flatten).take dklen

/-- KeyManager.KDF_ITERATIONS = 100_000 (encryption.py line 94). -/
def KDF_ITERATIONS : Nat := 100000

/-- The algorithm name the packaging call sites pass to `KeyManager.derive_key`. -/
def algAES256 : String := "AES-256"

/-- KeyManager.KEY_LENGTHS (encryption.py lines 95–98). -/
def KEY_LENGTHS : String → Option Nat
  | "AES-256" => some 32
  | "CHACHA20" => some 32
  | _ => none

/-- Translation of `derive_key(secret_key, salt)` in
customized_packaging_unpacking.py line 30–32:
`hashlib.pbkdf2_hmac('sha256', secret_key, salt, 100000, dklen=32)`. -/
def derive_key (secret_key salt : List Nat) : List Nat :=
  pbkdf2_hmac hmacSha256 secret_key salt 100000 32

/-- Translation of `KeyManager.derive_key(password, salt, algorithm)`:
looks up the key length for the algorithm (unsupported → KeyDerivationError),
then PBKDF2 with `KDF_ITERATIONS` iterations and that output length. -/
def KeyManager_derive_key (password salt : List Nat) (algorithm : String) :
    Except PyErr (List Nat) :=
  match KEY_LENGTHS algorithm with
  | none => .error .unsupportedAlgorithm
  | some klen => .ok (pbkdf2_hmac hmacSha256 password salt KDF_ITERATIONS klen)

/-!
A concrete instantiation of the `Crypto` primitives, used to evaluate the model at
concrete inputs: an invertible keyed block function, a keyed AEAD pair with a
deterministic tag, a 32-byte digest, a 32-byte derived key.
-/

/-- Add a position-dependent pad (an invertible toy block transformation). -/
def addPad (p : Nat → Nat) : Nat → List Nat → List Nat
  | _, [] => []
  | i, x :: xs => (x + p i) :: addPad p (i + 1) xs

/-- Inverse of `addPad`. -/
def subPad (p : Nat → Nat) : Nat → List Nat → List Nat
  | _, [] => []
  | i, x :: xs => (x - p i) :: subPad p (i + 1) xs

/-- Concrete 32-byte digest with every byte in 1..255. -/
def toyHash (l : List Nat) : List Nat :=
  (List.range 32).map (fun i => mixNat (i + 51) l % 255 + 1)

/-- Key-dependent pad stream for the block cipher stand-in. -/
def toyBlockPad (key : List Nat) (i : Nat) : Nat := mixNat (i + 9) key % 251 + 1

/-- Concrete block-cipher encryption stand-in. -/
def toyEncBlock (key b : List Nat) : List Nat := addPad (toyBlockPad key) 0 b

/-- Concrete block-cipher decryption stand-in. -/
def toyDecBlock (key b : List Nat) : List Nat := subPad (toyBlockPad key) 0 b

/-- Concrete 32-byte key derivation stand-in. -/
def toyDeriveKey (s salt : List Nat) : List Nat := toyHash (s ++ [1] ++ salt)

/-- Key/nonce-dependent pad stream for the AEAD stand-in. -/
def toyGcmPad (key iv : List Nat) (i : Nat) : Nat := mixNat (i + 3) (key ++ [2] ++ iv)

/-- Concrete AEAD encryption stand-in. -/
def toyGcmEnc (key iv m : List Nat) : List Nat := addPad (toyGcmPad key iv) 0 m

/-- Concrete AEAD decryption stand-in. -/
def toyGcmDec (key iv c : List Nat) : List Nat := subPad (toyGcmPad key iv) 0 c

/-- Concrete 16-byte AEAD tag stand-in (keyed MAC over the ciphertext). -/
def toyGcmTag (key iv ct : List Nat) : List Nat :=
  (List.range 16).map (fun i => mixNat (i + 5) (key ++ [3] ++ iv ++ ct) % 256)

/-- The concrete primitive bundle. -/
def toyCrypto : Crypto :=
  { deriveKey := toyDeriveKey, encBlock := toyEncBlock, decBlock := toyDecBlock,
    hash := toyHash, gcmEnc := toyGcmEnc, gcmDec := toyGcmDec, gcmTag := toyGcmTag }

/-!
Concrete demonstration inputs: small filesystems, secrets and containers used to
evaluate the model (and to instantiate the parameterized theorems).
-/

set_option maxRecDepth 1000000

/-- Demonstration secret (pack side). -/
def secretA : List Nat := [9, 9]

/-- A different demonstration secret (wrong-key side). -/
def secretB : List Nat := [7]

/-- A fixed 16-byte IV standing for the random IV drawn at pack time. -/
def iv16 : List Nat := List.range 16

/-- Output path used by packaging demos. -/
def out0 : List Nat := [111, 117, 116]

/-- Output directory used by unpacking demos. -/
def dir0 : List Nat := [100]

/-- A 16-byte file content (every byte 'A'): its size is an exact multiple of the
AES block size, the case `unpack_file` mis-handles. -/
def contentA16 : List Nat := List.replicate 16 65

/-- Container packed from the single 16-byte file `a` with `secretA`. -/
def c1custContainer : List Nat :=
  (pack_files toyCrypto [([97], contentA16)] [[97]] iv16 secretA).toOption.getD []

/-- A 17-byte file content (two CBC blocks after padding). -/
def content17 : List Nat :=
  [104, 101, 108, 108, 111, 32, 119, 111, 114, 108, 100, 44, 32, 104, 105, 33, 35]

/-- Container packed from the single 17-byte file `a` with `secretA`. -/
def c3Container : List Nat :=
  (pack_files toyCrypto [([97], content17)] [[97]] iv16 secretA).toOption.getD []

/-- Sequential-mode demo filesystem: `a.txt` holding the two bytes "hi". -/
def fsSeq : List (List Nat × List Nat) := [([97, 46, 116, 120, 116], [104, 105])]

/-- The path of the sequential demo file. -/
def seqPathA : List Nat := [97, 46, 116, 120, 116]

/-- The container bytes `SequentialPackager.package` produces for `fsSeq` (no key). -/
def seqContainer : List Nat :=
  (package_bytes toyCrypto none iv16 fsSeq [seqPathA]).toOption.getD []

/-- A second customized-format container (different content and IV) for comparing
two pack invocations. -/
def c4ContainerB : List Nat :=
  (pack_files toyCrypto [([98], [1, 2, 3])] [[98]] (List.replicate 16 5) secretA).toOption.getD []

/-- Whether a trace consists only of plain writes to the given path. -/
def writesOnlyTo (out : List Nat) (tr : List FsOp) : Bool := tr.all (isWriteTo out)

/-- A manifest entry for an empty file with the correct (recomputed) hash. -/
def entryOkEmpty : PyFileInfo :=
  { path := [97], size := some 0, sha256 := some (toyHash []), blocks := [] }

/-- A manifest entry for an empty file carrying a wrong content hash (an all-zero
digest, which `toyHash` can never produce). -/
def entryBadEmpty : PyFileInfo :=
  { path := [98], size := some 0, sha256 := some (List.replicate 32 0), blocks := [] }

/-- A crafted sequential container: a CRC-valid unkeyed header over one good and
one hash-mismatching (empty) entry, with no payload — the only containers whose
misread header length still parses (see `SequentialPackager_unpack`). -/
def c5Container : List Nat :=
  (generate_header toyCrypto none iv16 [entryOkEmpty, entryBadEmpty]).toOption.getD []

/-- Duplicate input list for the duplicate-path claim. -/
def dupFiles : List (List Nat) := [seqPathA, seqPathA]

/-- The container bytes produced when the same path is packed twice. -/
def c8Container : List Nat :=
  (package_bytes toyCrypto none iv16 fsSeq dupFiles).toOption.getD []

/-- Chunked-mode demo filesystem: two files sharing the chunk-aligned region
`[1,2,3,4]` under chunk size 4. -/
def fsChunk : List (List Nat × List Nat) :=
  [([97], [1, 2, 3, 4, 5]), ([98], [1, 2, 3, 4, 9])]

/-!
Helper lemmas: lengths and slices of the serialized layouts, cancellation of the
XOR and toy-pad transformations, and error classification of the loops.
-/

theorem beBytes_length : ∀ (k v : Nat), (beBytes k v).length = k
  | 0, _ => rfl
  | k + 1, v => by simp [beBytes, beBytes_length k]

theorem fixLen_length (n : Nat) (s : List Nat) : (fixLen n s).length = n := by
  simp [fixLen]
  omega

theorem fixLen_of_length (n : Nat) (s : List Nat) (h : s.length = n) : fixLen n s = s := by
  subst h
  simp [fixLen]

theorem take_len_append (a b : List Nat) (n : Nat) (h : a.length = n) :
    (a ++ b).take n = a := by
  subst h
  exact List.take_left a b

theorem drop_len_append (a b : List Nat) (n : Nat) (h : a.length = n) :
    (a ++ b).drop n = b := by
  subst h
  exact List.drop_left a b

theorem xorBytes_length (a b : List Nat) : (xorBytes a b).length = min a.length b.length := by
  simp [xorBytes]

theorem xorBytes_cancel : ∀ (a b : List Nat), a.length = b.length →
    xorBytes a (xorBytes a b) = b
  | [], [], _ => rfl
  | [], _ :: _, h => by simp at h
  | _ :: _, [], h => by simp at h
  | x :: xs, y :: ys, h => by
    have ht : xs.length = ys.length := by simpa using h
    simp only [xorBytes, List.zipWith_cons_cons]
    rw [show Nat.xor x (Nat.xor x y) = y by
      change x ^^^ (x ^^^ y) = y
      rw [← Nat.xor_assoc, Nat.xor_self, Nat.zero_xor]]
    have := xorBytes_cancel xs ys ht
    simp only [xorBytes] at this
    rw [this]

theorem unpad16_error (d : List Nat) (e : PyErr) (h : unpad16 d = .error e) :
    e = .paddingError := by
  simp only [unpad16] at h
  split_ifs at h <;> simp_all

theorem unpackLoopF_fst_ne_keyMismatch (C : Crypto) (k : List Nat) :
    ∀ (fuel : Nat) (iv rem : List Nat) (acc : List (List Nat × List Nat)),
      (unpackLoopF C k fuel iv rem acc).1 ≠ .error .keyMismatch := by
  intro fuel
  induction fuel with
  | zero => intro iv rem acc h; simp [unpackLoopF] at h
  | succ n ih =>
    intro iv rem acc h
    simp only [unpackLoopF] at h
    split_ifs at h <;> try simp_all
    split at h
    · rename_i e heq
      cases unpad16_error _ _ heq
      simp at h
    · exact ih _ _ _ h

theorem pack_files_shape (C : Crypto) (fs : List (List Nat × List Nat))
    (files : List (List Nat)) (iv S c : List Nat)
    (h : pack_files C fs files iv S = .ok c) :
    ∃ body : List Nat,
      c = MAGIC_NUMBER ++ be32 VERSION ++ fixLen 16 iv ++
          fixLen 16 ((C.deriveKey S KEY_SALT).take 16) ++ body := by
  unfold pack_files at h
  cases hr : resolveInputs fs files with
  | error e => rw [hr] at h; simp at h
  | ok entries =>
    rw [hr] at h
    simp only [Except.ok.injEq] at h
    refine ⟨(packEntries C (packFilesDerivedKey C S) iv entries).1 ++
            fixLen 32 (C.hash (packEntries C (packFilesDerivedKey C S) iv entries).1), ?_⟩
    rw [← h]
    simp [packFilesDerivedKey]

theorem packed_take4 (iv k body : List Nat) :
    (MAGIC_NUMBER ++ be32 VERSION ++ fixLen 16 iv ++ fixLen 16 k ++ body).take 4 =
      MAGIC_NUMBER := by
  rw [show MAGIC_NUMBER ++ be32 VERSION ++ fixLen 16 iv ++ fixLen 16 k ++ body
      = MAGIC_NUMBER ++ (be32 VERSION ++ (fixLen 16 iv ++ (fixLen 16 k ++ body))) by
        simp [List.append_assoc]]
  exact take_len_append _ _ 4 (by simp [MAGIC_NUMBER])

theorem packed_drop4 (iv k body : List Nat) :
    (MAGIC_NUMBER ++ be32 VERSION ++ fixLen 16 iv ++ fixLen 16 k ++ body).drop 4 =
      be32 VERSION ++ (fixLen 16 iv ++ (fixLen 16 k ++ body)) := by
  rw [show MAGIC_NUMBER ++ be32 VERSION ++ fixLen 16 iv ++ fixLen 16 k ++ body
      = MAGIC_NUMBER ++ (be32 VERSION ++ (fixLen 16 iv ++ (fixLen 16 k ++ body))) by
        simp [List.append_assoc]]
  exact drop_len_append _ _ 4 (by simp [MAGIC_NUMBER])

theorem packed_drop8 (iv k body : List Nat) :
    (MAGIC_NUMBER ++ be32 VERSION ++ fixLen 16 iv ++ fixLen 16 k ++ body).drop 8 =
      fixLen 16 iv ++ (fixLen 16 k ++ body) := by
  rw [show MAGIC_NUMBER ++ be32 VERSION ++ fixLen 16 iv ++ fixLen 16 k ++ body
      = (MAGIC_NUMBER ++ be32 VERSION) ++ (fixLen 16 iv ++ (fixLen 16 k ++ body)) by
        simp [List.append_assoc]]
  exact drop_len_append _ _ 8 (by simp [MAGIC_NUMBER, be32, beBytes_length])

theorem packed_drop24 (iv k body : List Nat) :
    (MAGIC_NUMBER ++ be32 VERSION ++ fixLen 16 iv ++ fixLen 16 k ++ body).drop 24 =
      fixLen 16 k ++ body := by
  rw [show MAGIC_NUMBER ++ be32 VERSION ++ fixLen 16 iv ++ fixLen 16 k ++ body
      = (MAGIC_NUMBER ++ (be32 VERSION ++ fixLen 16 iv)) ++ (fixLen 16 k ++ body) by
        simp [List.append_assoc]]
  exact drop_len_append _ _ 24
    (by simp [MAGIC_NUMBER, be32, beBytes_length, fixLen_length])

theorem packed_drop40 (iv k body : List Nat) :
    (MAGIC_NUMBER ++ be32 VERSION ++ fixLen 16 iv ++ fixLen 16 k ++ body).drop 40 = body := by
  rw [show MAGIC_NUMBER ++ be32 VERSION ++ fixLen 16 iv ++ fixLen 16 k ++ body
      = (MAGIC_NUMBER ++ (be32 VERSION ++ (fixLen 16 iv ++ fixLen 16 k))) ++ body by
        simp [List.append_assoc]]
  exact drop_len_append _ _ 40
    (by simp [MAGIC_NUMBER, be32, beBytes_length, fixLen_length])

theorem subPad_addPad (p : Nat → Nat) : ∀ (i : Nat) (xs : List Nat),
    subPad p i (addPad p i xs) = xs
  | _, [] => rfl
  | i, x :: xs => by simp [addPad, subPad, subPad_addPad p (i + 1) xs]

theorem addPad_length (p : Nat → Nat) : ∀ (i : Nat) (xs : List Nat),
    (addPad p i xs).length = xs.length
  | _, [] => rfl
  | i, x :: xs => by simp [addPad, addPad_length p (i + 1) xs]

theorem toyDecBlock_toyEncBlock (k b : List Nat) : toyDecBlock k (toyEncBlock k b) = b :=
  subPad_addPad _ 0 b

theorem toyEncBlock_length (k b : List Nat) : (toyEncBlock k b).length = b.length :=
  addPad_length _ 0 b

theorem toyDeriveKey_length (s salt : List Nat) : (toyDeriveKey s salt).length = 32 := by
  simp [toyDeriveKey, toyHash]

theorem unpack_file_shaped (C : Crypto) (iv k body S2 : List Nat) :
    unpack_file C (MAGIC_NUMBER ++ be32 VERSION ++ fixLen 16 iv ++ fixLen 16 k ++ body) S2 =
      if fixLen 16 k == (C.deriveKey S2 KEY_SALT).take 16 then
        unpackLoop C (unpackDerivedKey C S2) (fixLen 16 iv) body []
      else (.error .keyMismatch, []) := by
  unfold unpack_file unpackKeyCheck unpackDerivedKey
  rw [packed_take4, packed_drop4, packed_drop8, packed_drop24, packed_drop40]
  rw [take_len_append (be32 VERSION) _ 4 (beBytes_length 4 VERSION)]
  rw [take_len_append (fixLen 16 iv) _ 16 (fixLen_length 16 iv)]
  rw [take_len_append (fixLen 16 k) _ 16 (fixLen_length 16 k)]
  cases hb : (fixLen 16 k == (C.deriveKey S2 KEY_SALT).take 16) with
  | true => simp [be32, beBytes_length, fixLen_length, hb, unpackDerivedKey]
  | false => simp [be32, beBytes_length, fixLen_length, hb]

/-- C2: for every file set, IV and pair of secrets whose derived-key 16-byte
fragments differ (as PBKDF2's 32-byte outputs do for distinct secrets, barring a
fragment collision), unpacking a container packed with the first secret using the
second fails with the key-verification ValueError and writes no files at all. -/
theorem c2_wrong_key_rejected (C : Crypto) (fs : List (List Nat × List Nat))
    (files : List (List Nat)) (iv S S2 c : List Nat)
    (hp : pack_files C fs files iv S = .ok c)
    (hlen : (C.deriveKey S KEY_SALT).length = 32)
    (hne : (C.deriveKey S2 KEY_SALT).take 16 ≠ (C.deriveKey S KEY_SALT).take 16) :
    unpack_file C c S2 = (.error .keyMismatch, []) := by
  obtain ⟨body, rfl⟩ := pack_files_shape C fs files iv S c hp
  rw [unpack_file_shaped]
  rw [fixLen_of_length 16 _ (by simp [List.length_take, hlen])]
  rw [show ((C.deriveKey S KEY_SALT).take 16 == (C.deriveKey S2 KEY_SALT).take 16) = false
      from beq_eq_false_iff_ne.mpr (Ne.symm hne)]
  simp

/-- Witness for C2 at a concrete input: the two concrete secrets derive keys with
different 16-byte fragments, and unpacking `c3Container` (packed with `secretA`)
using `secretB` is rejected with the key-verification error, nothing written. -/
theorem c2_wrong_key_rejected_witness :
    (toyCrypto.deriveKey secretB KEY_SALT).take 16 ≠ (toyCrypto.deriveKey secretA KEY_SALT).take 16
  ∧ unpack_file toyCrypto c3Container secretB = (.error .keyMismatch, []) :=
  ⟨by decide,
   c2_wrong_key_rejected toyCrypto [([97], content17)] [[97]] iv16 secretA secretB c3Container
     (by rfl) (by decide) (by decide)⟩

theorem unpackKeyCheck_shaped (C : Crypto) (iv k body : List Nat) (T : List Nat) :
    unpackKeyCheck C (MAGIC_NUMBER ++ be32 VERSION ++ fixLen 16 iv ++ fixLen 16 k ++ body) T =
      (fixLen 16 k == (C.deriveKey T KEY_SALT).take 16) := by
  unfold unpackKeyCheck unpackDerivedKey
  rw [packed_drop24, take_len_append (fixLen 16 k) _ 16 (fixLen_length 16 k)]

/-- C10 (implicit claim): every container produced by `pack_files` stores the first
16 bytes of the PBKDF2-derived key in plaintext at header offsets 24..40; unpack
rejects a secret with the key-verification error exactly when the 16-byte fragment
derived from that secret differs from those stored bytes; and for any two secrets
whose derived keys agree on their first 16 bytes the acceptance test is identical —
the remaining 16 key bytes play no role in acceptance. -/
theorem c10_key_fragment_authenticator (C : Crypto) (fs : List (List Nat × List Nat))
    (files : List (List Nat)) (iv S c : List Nat)
    (hp : pack_files C fs files iv S = .ok c)
    (hlen : (C.deriveKey S KEY_SALT).length = 32) :
    (c.drop 24).take 16 = (C.deriveKey S KEY_SALT).take 16
  ∧ (∀ S2, unpack_file C c S2 = (.error .keyMismatch, []) ↔ unpackKeyCheck C c S2 = false)
  ∧ (∀ S1 S2, (C.deriveKey S1 KEY_SALT).take 16 = (C.deriveKey S2 KEY_SALT).take 16 →
      unpackKeyCheck C c S1 = unpackKeyCheck C c S2) := by
  obtain ⟨body, rfl⟩ := pack_files_shape C fs files iv S c hp
  have hfix : fixLen 16 ((C.deriveKey S KEY_SALT).take 16) = (C.deriveKey S KEY_SALT).take 16 :=
    fixLen_of_length 16 _ (by simp [List.length_take, hlen])
  refine ⟨?_, ?_, ?_⟩
  · rw [packed_drop24, take_len_append _ _ 16 (fixLen_length 16 _), hfix]
  · intro S2
    rw [unpack_file_shaped, unpackKeyCheck_shaped]
    cases hb : (fixLen 16 ((C.deriveKey S KEY_SALT).take 16) ==
        (C.deriveKey S2 KEY_SALT).take 16) with
    | true =>
      simp only [hb, if_true]
      constructor
      · intro h
        exact absurd (congrArg Prod.fst h)
          (unpackLoopF_fst_ne_keyMismatch C (unpackDerivedKey C S2) (body.length + 1)
            (fixLen 16 iv) body [])
      · intro h
        simp at h
    | false => simp [hb]
  · intro S1 S2 h12
    rw [unpackKeyCheck_shaped, unpackKeyCheck_shaped, h12]

/-- Witness for C10 at a concrete input: the container packed from the 17-byte demo
file, with the PBKDF2 length side-condition discharged on the concrete primitives. -/
theorem c10_key_fragment_authenticator_witness :
    (c3Container.drop 24).take 16 = (toyCrypto.deriveKey secretA KEY_SALT).take 16
  ∧ (∀ S2, unpack_file toyCrypto c3Container S2 = (.error .keyMismatch, []) ↔
      unpackKeyCheck toyCrypto c3Container S2 = false)
  ∧ (∀ S1 S2, (toyCrypto.deriveKey S1 KEY_SALT).take 16 =
        (toyCrypto.deriveKey S2 KEY_SALT).take 16 →
      unpackKeyCheck toyCrypto c3Container S1 = unpackKeyCheck toyCrypto c3Container S2) :=
  c10_key_fragment_authenticator toyCrypto [([97], content17)] [[97]] iv16 secretA c3Container
    (by rfl) (by decide)

theorem packed_take40 (iv k body : List Nat) :
    (MAGIC_NUMBER ++ be32 VERSION ++ fixLen 16 iv ++ fixLen 16 k ++ body).take 40 =
      MAGIC_NUMBER ++ be32 VERSION ++ fixLen 16 iv ++ fixLen 16 k := by
  rw [show MAGIC_NUMBER ++ be32 VERSION ++ fixLen 16 iv ++ fixLen 16 k ++ body
      = (MAGIC_NUMBER ++ (be32 VERSION ++ (fixLen 16 iv ++ fixLen 16 k))) ++ body by
        simp [List.append_assoc]]
  rw [take_len_append _ _ 40 (by simp [MAGIC_NUMBER, be32, beBytes_length, fixLen_length])]
  rw [List.append_assoc, List.append_assoc]

/-- C4 counterexample: the salt `pack_files` uses is the fixed module constant
`KEY_SALT = b'salt_for_key_derivation'`; two pack invocations over different
files, IVs and contents yield different containers, yet neither container
contains the salt anywhere (in particular not unencrypted in its header region),
and the key `unpack_file` derives is a function of the secret and this constant
alone — it reads no salt from the container.  This contradicts the claim that
a fresh random salt is generated per container, stored in the header, and read
back at unpack time. -/
theorem c4_salt_not_per_container_counterexample :
    KEY_SALT = [115, 97, 108, 116, 95, 102, 111, 114, 95, 107, 101, 121, 95, 100,
      101, 114, 105, 118, 97, 116, 105, 111, 110]
  ∧ c1custContainer ≠ c4ContainerB
  ∧ ¬ (KEY_SALT <:+: c1custContainer)
  ∧ ¬ (KEY_SALT <:+: c4ContainerB)
  ∧ unpackDerivedKey toyCrypto secretA = toyCrypto.deriveKey secretA KEY_SALT :=
  ⟨rfl, by decide, by decide, by decide, rfl⟩

/-- C4 as amended: the key-derivation salt is the fixed module constant `KEY_SALT`
shared by every container; it is not stored in the container — the 40-byte header
region written at pack time consists exactly of the magic, the version, the IV and
the first 16 bytes of the derived key — and both pack and unpack derive the key
from that constant plus the caller-supplied secret. -/
theorem c4_fixed_salt_amended (C : Crypto) (fs : List (List Nat × List Nat))
    (files : List (List Nat)) (iv S c : List Nat)
    (hp : pack_files C fs files iv S = .ok c)
    (hlen : (C.deriveKey S KEY_SALT).length = 32) :
    packFilesDerivedKey C S = C.deriveKey S KEY_SALT
  ∧ unpackDerivedKey C S = C.deriveKey S KEY_SALT
  ∧ c.take 40 = MAGIC_NUMBER ++ be32 VERSION ++ fixLen 16 iv ++
      (C.deriveKey S KEY_SALT).take 16 := by
  obtain ⟨body, rfl⟩ := pack_files_shape C fs files iv S c hp
  refine ⟨rfl, rfl, ?_⟩
  rw [packed_take40]
  rw [fixLen_of_length 16 ((C.deriveKey S KEY_SALT).take 16)
    (by simp only [List.length_take, hlen]; omega)]

/-- Witness for the amended C4 at a concrete input. -/
theorem c4_fixed_salt_amended_witness :
    packFilesDerivedKey toyCrypto secretA = toyCrypto.deriveKey secretA KEY_SALT
  ∧ unpackDerivedKey toyCrypto secretA = toyCrypto.deriveKey secretA KEY_SALT
  ∧ c1custContainer.take 40 = MAGIC_NUMBER ++ be32 VERSION ++ fixLen 16 iv16 ++
      (toyCrypto.deriveKey secretA KEY_SALT).take 16 :=
  c4_fixed_salt_amended toyCrypto [([97], contentA16)] [[97]] iv16 secretA c1custContainer
    (by rfl) (by decide)

/-- C1 (code bug): the pack/unpack round-trip fails on the code itself.
Customized pair: packing the single 16-byte file `a` with `secretA` succeeds, but
unpacking the resulting container with the *same* secret raises the PKCS#7
ValueError and extracts nothing — for file sizes that are exact multiples of 16
the read formula `(size + 15) / 16 * 16` under-reads the ciphertext by one block,
because `pad` always appends a full extra block in that case.  Sequential pair:
packing `a.txt` ("hi") succeeds, but `unpack` reads bytes 6..10 (the version byte
plus three checksum bytes) as a header-length field `_generate_header` never
wrote, hands header-plus-payload to the CRC check, and fails for every container
with nonempty payload. -/
theorem c1_roundtrip_fails_on_code :
    pack_files toyCrypto [([97], contentA16)] [[97]] iv16 secretA = .ok c1custContainer
  ∧ unpack_file toyCrypto c1custContainer secretA = (.error .paddingError, [])
  ∧ package_bytes toyCrypto none iv16 fsSeq [seqPathA] = .ok seqContainer
  ∧ SequentialPackager_unpack toyCrypto none seqContainer dir0 =
      (.error .headerChecksum, [.mkdirOp dir0]) :=
  ⟨by rfl, by rfl, by rfl, by rfl⟩

/-- C3 (code bug): single-byte tampering is not detected by `unpack_file`.  The
untampered 17-byte demo container unpacks successfully; flipping header byte 4
(part of the version field, which is read but never validated) still unpacks with
full success; and flipping payload byte 53 (the first ciphertext byte) still
reports success while silently writing corrupted file content — the trailing
checksum is computed but its comparison is commented out in the source. -/
theorem c3_single_byte_tamper_silent_success :
    unpack_file toyCrypto c3Container secretA = (.ok (), [([97], content17)])
  ∧ c3Container.set 4 1 ≠ c3Container
  ∧ unpack_file toyCrypto (c3Container.set 4 1) secretA = (.ok (), [([97], content17)])
  ∧ c3Container.set 53 (c3Container.getD 53 0 + 1) ≠ c3Container
  ∧ (unpack_file toyCrypto (c3Container.set 53 (c3Container.getD 53 0 + 1)) secretA).1 = .ok ()
  ∧ (unpack_file toyCrypto (c3Container.set 53 (c3Container.getD 53 0 + 1)) secretA).2 ≠
      [([97], content17)] :=
  ⟨by rfl, by decide, by rfl, by decide, by rfl, by decide⟩

/-- C6: the mandatory per-file integrity gate of sequential unpack.  After a
file's bytes are fully consumed from the payload, the gate recomputes the
whole-file hash and compares it with the manifest entry: on disagreement the
whole unpack fails with the content-hash-mismatch PackingError, the partially
written output file is deleted, and no extracted list is ever returned; on
agreement extraction simply continues with the next entry through the same gate. -/
theorem c6_hash_gate (C : Crypto) (dir : List Nat) (f : PyFileInfo) (rest : List PyFileInfo)
    (rem : List Nat) (sz : Nat) (hsh : List Nat)
    (hsz : f.size = some sz) (hsha : f.sha256 = some hsh) (havail : sz ≤ rem.length) :
    (C.hash (rem.take sz) ≠ hsh →
      extract_files C dir (f :: rest) rem =
        (.error (.hashMismatch f.path),
         [.writeFile (dir ++ [47] ++ f.path) (rem.take sz),
          .deleteFile (dir ++ [47] ++ f.path)]))
  ∧ (C.hash (rem.take sz) = hsh →
      extract_files C dir (f :: rest) rem =
        (((extract_files C dir rest (rem.drop sz)).1).map
            (fun l => (dir ++ [47] ++ f.path) :: l),
         .writeFile (dir ++ [47] ++ f.path) (rem.take sz) ::
           (extract_files C dir rest (rem.drop sz)).2)) := by
  constructor
  · intro hmis
    simp only [extract_files, hsz, hsha]
    rw [if_neg (Nat.not_lt.mpr havail), if_pos hmis]
  · intro hok
    simp only [extract_files, hsz, hsha]
    rw [if_neg (Nat.not_lt.mpr havail), if_neg (by simp [hok])]

/-- Witness for C6 at a concrete input: a manifest entry whose stored digest is
the all-zero string (which the digest function never produces) fails the gate on
an empty payload, deleting the just-written output file. -/
theorem c6_hash_gate_witness :
    toyCrypto.hash (List.take 0 []) ≠ List.replicate 32 0
  ∧ extract_files toyCrypto dir0 [entryBadEmpty] [] =
      (.error (.hashMismatch [98]),
       [.writeFile (dir0 ++ [47] ++ [98]) [], .deleteFile (dir0 ++ [47] ++ [98])]) :=
  ⟨by decide,
   (c6_hash_gate toyCrypto dir0 entryBadEmpty [] [] 0 (List.replicate 32 0)
      (by rfl) (by rfl) (by decide)).1 (by decide)⟩

/-- C5 counterexample: pack performs no temporary-path write and no atomic rename —
its entire effect is one direct write of the container to the final output path —
and a failed sequential unpack does not restore the filesystem: on the crafted
two-entry container whose second entry's hash mismatches, unpack fails yet leaves
the created output directory and the first extracted file behind, deleting only
the mismatching file. -/
theorem c5_no_temp_rename_counterexample :
    (SequentialPackager_package toyCrypto none iv16 fsSeq [seqPathA] out0).2 =
      [FsOp.writeFile out0 seqContainer]
  ∧ (SequentialPackager_package toyCrypto none iv16 fsSeq [seqPathA] out0).2.countP
      isRenameOp = 0
  ∧ SequentialPackager_unpack toyCrypto none c5Container dir0 =
      (.error (.hashMismatch [98]),
       [.mkdirOp dir0, .writeFile (dir0 ++ [47] ++ [97]) [],
        .writeFile (dir0 ++ [47] ++ [98]) [], .deleteFile (dir0 ++ [47] ++ [98])])
  ∧ (SequentialPackager_unpack toyCrypto none c5Container dir0).2.countP
      (isDeleteOf (dir0 ++ [47] ++ [97])) = 0 :=
  ⟨by rfl, by rfl, by rfl, by rfl⟩

/-- C5 as amended: pack writes the container directly to the final output path —
every filesystem effect of `package` is a plain write to that path, with no
temporary file and no rename — and a sequential unpack that fails a file's hash
check deletes only that file, leaving previously extracted files (and the created
output directory) in place. -/
theorem c5_direct_write_cleanup_amended :
    (∀ (C : Crypto) (key : Option (List Nat)) (iv : List Nat)
        (fs : List (List Nat × List Nat)) (files : List (List Nat)) (out : List Nat),
      writesOnlyTo out (SequentialPackager_package C key iv fs files out).2 = true)
  ∧ (∀ (C : Crypto) (dir : List Nat) (f1 f2 : PyFileInfo) (rem : List Nat)
        (sz1 sz2 : Nat) (h1 h2 : List Nat),
      f1.size = some sz1 → f1.sha256 = some h1 → sz1 ≤ rem.length →
      C.hash (rem.take sz1) = h1 →
      f2.size = some sz2 → f2.sha256 = some h2 → sz2 ≤ (rem.drop sz1).length →
      C.hash ((rem.drop sz1).take sz2) ≠ h2 →
      extract_files C dir [f1, f2] rem =
        (.error (.hashMismatch f2.path),
         [.writeFile (dir ++ [47] ++ f1.path) (rem.take sz1),
          .writeFile (dir ++ [47] ++ f2.path) ((rem.drop sz1).take sz2),
          .deleteFile (dir ++ [47] ++ f2.path)])) := by
  constructor
  · intro C key iv fs files out
    unfold SequentialPackager_package
    cases package_bytes C key iv fs files <;> simp [writesOnlyTo, isWriteTo]
  · intro C dir f1 f2 rem sz1 sz2 h1 h2 hs1 hh1 ha1 hok hs2 hh2 ha2 hmis
    simp only [extract_files, hs1, hh1, hs2, hh2]
    rw [if_neg (Nat.not_lt.mpr ha1), if_neg (by simp [hok]),
      if_neg (Nat.not_lt.mpr ha2), if_pos hmis]
    simp [Except.map]

/-- Witness for the amended C5 at concrete inputs. -/
theorem c5_direct_write_cleanup_amended_witness :
    writesOnlyTo out0 (SequentialPackager_package toyCrypto none iv16 fsSeq [seqPathA] out0).2
      = true
  ∧ extract_files toyCrypto dir0 [entryOkEmpty, entryBadEmpty] [] =
      (.error (.hashMismatch [98]),
       [.writeFile (dir0 ++ [47] ++ [97]) [], .writeFile (dir0 ++ [47] ++ [98]) [],
        .deleteFile (dir0 ++ [47] ++ [98])]) :=
  ⟨c5_direct_write_cleanup_amended.1 toyCrypto none iv16 fsSeq [seqPathA] out0,
   c5_direct_write_cleanup_amended.2 toyCrypto dir0 entryOkEmpty entryBadEmpty [] 0 0
     (toyHash []) (List.replicate 32 0) (by rfl) (by rfl) (by decide) (by rfl)
     (by rfl) (by rfl) (by decide) (by decide)⟩

/-- C8 counterexample: a list containing the same path twice is packed without
complaint — `package` succeeds, the entry-count field of the unkeyed header
(bytes 11..15) records two entries for the one path, and the container is written
to the output — duplicate relative paths are not rejected as an input error. -/
theorem c8_duplicates_accepted_counterexample :
    package_bytes toyCrypto none iv16 fsSeq dupFiles = .ok c8Container
  ∧ (c8Container.drop 11).take 4 = [0, 0, 0, 2]
  ∧ SequentialPackager_package toyCrypto none iv16 fsSeq dupFiles out0 =
      (.ok out0, [.writeFile out0 c8Container]) :=
  ⟨by rfl, by rfl, by rfl⟩

/-- C8 as amended: pack validates only that every input path exists — the first
missing path aborts with the path-not-found FileSystemError before any output is
written — and performs no duplicate-path check: any input list whose paths all
exist is packed, in particular a list naming the same path twice. -/
theorem c8_existence_only_validation_amended :
    (∀ (C : Crypto) (key : Option (List Nat)) (iv : List Nat)
        (fs : List (List Nat × List Nat)) (files : List (List Nat)) (out : List Nat)
        (p : List Nat),
      validate_paths fs files = .error (.pathNotFound p) →
      SequentialPackager_package C key iv fs files out = (.error (.pathNotFound p), []))
  ∧ (∀ (C : Crypto) (iv : List Nat) (fs : List (List Nat × List Nat)) (p c : List Nat),
      fs.lookup p = some c →
      (package_bytes C none iv fs [p, p]).isOk = true) := by
  constructor
  · intro C key iv fs files out p h
    unfold SequentialPackager_package package_bytes
    rw [h]
  · intro C iv fs p c h
    have hv : validate_paths fs [p, p] = .ok [p, p] := by
      simp [validate_paths, h]
    unfold package_bytes
    rw [hv]
    simp [generate_header, key_manager_key, header_plain, headerEntryBytes, build_file_list,
      Except.isOk, Except.toBool]

/-- Witness for the amended C8 at concrete inputs: a missing path is rejected with
no output written, and packing the same existing path twice succeeds. -/
theorem c8_existence_only_validation_amended_witness :
    SequentialPackager_package toyCrypto none iv16 fsSeq [[99]] out0 =
      (.error (.pathNotFound [99]), [])
  ∧ (package_bytes toyCrypto none iv16 fsSeq [seqPathA, seqPathA]).isOk = true :=
  ⟨c8_existence_only_validation_amended.1 toyCrypto none iv16 fsSeq [[99]] out0 [99] (by rfl),
   c8_existence_only_validation_amended.2 toyCrypto iv16 fsSeq seqPathA [104, 105] (by rfl)⟩

theorem mapReplace_keys : ∀ (m : List (List Nat × List Nat)) (k v : List Nat),
    (m.map (fun kv => if kv.1 = k then (k, v) else kv)).map Prod.fst = m.map Prod.fst
  | [], _, _ => rfl
  | kv :: m, k, v => by
    simp only [List.map_cons, mapReplace_keys m k v, List.cons.injEq, and_true]
    split_ifs with h
    · simp [h]
    · rfl

theorem lookup_none_not_mem : ∀ (m : List (List Nat × List Nat)) (k : List Nat),
    m.lookup k = none → k ∉ m.map Prod.fst
  | [], _, _ => by simp
  | (a, b) :: m, k, h => by
    by_cases hk : k = a
    · subst hk
      simp [List.lookup] at h
    · have h2 : m.lookup k = none := by
        simpa [List.lookup, beq_eq_false_iff_ne.mpr hk] using h
      have := lookup_none_not_mem m k h2
      simp [hk, this]

theorem dictInsert_nodup (m : List (List Nat × List Nat)) (k v : List Nat)
    (h : (m.map Prod.fst).Nodup) : ((dictInsert m k v).map Prod.fst).Nodup := by
  unfold dictInsert
  split_ifs with hs
  · rw [mapReplace_keys]
    exact h
  · have hnone : m.lookup k = none := Option.not_isSome_iff_eq_none.mp hs
    simp only [List.map_append, List.map_cons, List.map_nil]
    rw [List.nodup_append]
    refine ⟨h, List.nodup_singleton k, ?_⟩
    intro a ha hak
    rw [List.mem_singleton] at hak
    subst hak
    exact lookup_none_not_mem m a hnone ha

theorem addChunks_nodup (C : Crypto) : ∀ (cs : List (List Nat)) (m : List (List Nat × List Nat)),
    (m.map Prod.fst).Nodup → (((addChunks C m cs).2).map Prod.fst).Nodup
  | [], _, h => h
  | _c :: cs, m, h => addChunks_nodup C cs _ (dictInsert_nodup m _ _ h)

theorem chunkFiles_nodup (C : Crypto) (csz : Nat) :
    ∀ (contents : List (List Nat × List Nat)) (m : List (List Nat × List Nat)),
    (m.map Prod.fst).Nodup → (((chunkFiles C csz m contents).2).map Prod.fst).Nodup
  | [], _, h => h
  | (_p, _content) :: rest, m, h =>
    chunkFiles_nodup C csz rest _ (addChunks_nodup C _ m h)

/-- C9 (code bug): the chunked block map does deduplicate — the map built by
`ChunkedPackager.package` never holds two entries for the same BlockRef, and on
the concrete pair of files sharing the chunk-aligned region `[1,2,3,4]` (chunk
size 4) the map stores three blocks, not four, with both files' manifests naming
the identical BlockRef for the shared chunk — but the operation never gets to
store them: `ChunkedPackager.package` passes its `path`/`blocks`-only entries to
`_generate_header`, which reads the missing `size` key, so packing any nonempty
file list dies with KeyError before any output is written. -/
theorem c9_chunked_dedup_and_crash :
    (∀ (C : Crypto) (chunk_size : Nat) (contents : List (List Nat × List Nat)),
      (((chunkFiles C chunk_size [] contents).2).map Prod.fst).Nodup)
  ∧ ((chunkFiles toyCrypto 4 [] [([97], [1, 2, 3, 4, 5]), ([98], [1, 2, 3, 4, 9])]).2).length = 3
  ∧ (chunkFiles toyCrypto 4 [] [([97], [1, 2, 3, 4, 5]), ([98], [1, 2, 3, 4, 9])]).1 =
      [⟨[97], none, none, [blockId toyCrypto [1, 2, 3, 4], blockId toyCrypto [5]]⟩,
       ⟨[98], none, none, [blockId toyCrypto [1, 2, 3, 4], blockId toyCrypto [9]]⟩]
  ∧ ChunkedPackager_package toyCrypto none 4 iv16 (fun _ => iv16) id
      [([97], [1, 2, 3, 4, 5]), ([98], [1, 2, 3, 4, 9])] [[97], [98]] out0 =
      (.error .keyErrorSize, []) := by
  refine ⟨?_, by rfl, by rfl, by rfl⟩
  intro C csz contents
  exact chunkFiles_nodup C csz contents [] (by simp)

theorem hmacSha256_length (k m : List Nat) : (hmacSha256 k m).length = 32 := by
  simp [hmacSha256]

theorem pbkdf2Iter_length (pw : List Nat) : ∀ (n : Nat) (u acc : List Nat),
    acc.length = 32 → (pbkdf2Iter hmacSha256 pw n u acc).length = 32
  | 0, _, _, h => h
  | n + 1, u, acc, h => by
    apply pbkdf2Iter_length pw n
    simp [xorBytes, h, hmacSha256_length]

theorem pbkdf2F_length (pw salt : List Nat) (c i : Nat) :
    (pbkdf2F hmacSha256 pw salt c i).length = 32 := by
  unfold pbkdf2F
  exact pbkdf2Iter_length pw (c - 1) _ _ (hmacSha256_length _ _)

theorem pbkdf2_hmac_length_32 (pw salt : List Nat) (c : Nat) :
    (pbkdf2_hmac hmacSha256 pw salt c 32).length = 32 := by
  unfold pbkdf2_hmac
  rw [show (32 + 32 - 1) / 32 = 1 from rfl,
    show List.range 1 = [0] from rfl]
  simp [pbkdf2F_length, Function.comp]

/-- C7: key derivation is deterministic and correctly parameterized.  Both
`derive_key` (customized module) and `KeyManager.derive_key` (encryption module,
algorithm AES-256) are the salted, iterated PBKDF2 construction with the fixed
iteration count `KDF_ITERATIONS = 100000 ≥ 100000`: equal secrets and salts give
equal keys (derivation is a pure function of secret and salt), and the output is
always exactly 32 bytes, the AES-256 key size recorded in `KEY_LENGTHS`. -/
theorem c7_kdf_parameters :
    KDF_ITERATIONS = 100000
  ∧ 100000 ≤ KDF_ITERATIONS
  ∧ (∀ s salt, derive_key s salt = pbkdf2_hmac hmacSha256 s salt KDF_ITERATIONS 32)
  ∧ (∀ s1 salt1 s2 salt2, s1 = s2 → salt1 = salt2 → derive_key s1 salt1 = derive_key s2 salt2)
  ∧ (∀ s salt, (derive_key s salt).length = 32)
  ∧ KEY_LENGTHS algAES256 = some 32
  ∧ (∀ p salt, KeyManager_derive_key p salt algAES256 =
      .ok (pbkdf2_hmac hmacSha256 p salt KDF_ITERATIONS 32))
  ∧ (∀ p salt k, KeyManager_derive_key p salt algAES256 = .ok k → k.length = 32) := by
  refine ⟨rfl, Nat.le_refl _, fun s salt => rfl, ?_, ?_, rfl, fun p salt => rfl, ?_⟩
  · intro s1 salt1 s2 salt2 h1 h2
    rw [h1, h2]
  · intro s salt
    exact pbkdf2_hmac_length_32 s salt 100000
  · intro p salt k h
    have h2 : pbkdf2_hmac hmacSha256 p salt KDF_ITERATIONS 32 = k := by
      simpa [KeyManager_derive_key, KEY_LENGTHS, algAES256] using h
    rw [← h2]
    exact pbkdf2_hmac_length_32 p salt KDF_ITERATIONS

/-- Witness for C7 at concrete inputs (the derivation applied to concrete byte
strings, its determinism and output length obtained from the theorem). -/
theorem c7_kdf_parameters_witness :
    derive_key [1] [2] = derive_key [1] [2] ∧ (derive_key [1] [2]).length = 32 :=
  ⟨c7_kdf_parameters.2.2.2.1 [1] [2] [1] [2] rfl rfl,
   c7_kdf_parameters.2.2.2.2.1 [1] [2]⟩
